import Mathlib

/-!
Verification of the item-store service in `app/routes.py`.

The service keeps a module-level list `items` of dicts `{'id': int, 'name': str}`
and exposes five handlers over it.  We embed the store as a `List Item`, each
handler as a pure function from its inputs and the current store to an HTTP
response (status code plus JSON body) and, for mutating handlers, the new store.
Request bodies (`request.get_json()`) are embedded as `Body`: either an absent /
non-dict parse (Python `None`, falsy) or a dict, modelled as an association
list of string keys to string values.
-/

namespace FlaskApi

/-- An item record `{'id': ..., 'name': ...}`. -/
structure Item where
  id : Nat
  name : String
deriving Repr, DecidableEq

/-- The in-memory data store: the module-level list `items`. -/
abbrev Store := List Item

/-- Result of `request.get_json()`: `absent` stands for `None` (no body or a
parse that is not a dict); `dict` is a JSON object, keys unique in source. -/
inductive Body where
  | absent : Body
  | dict : List (String × String) → Body
deriving Repr, DecidableEq

/-- Python truthiness test `not data`: `None` and the empty dict are falsy. -/
def bodyFalsy : Body → Bool
  | .absent => true
  | .dict d => d.isEmpty

/-- Key membership test for `name` followed by the lookup: the value the
dict holds at key `name`, when present. -/
def bodyName : Body → Option String
  | .absent => none
  | .dict d => (d.find? (fun kv => kv.1 == "name")).map (fun kv => kv.2)

/-- JSON bodies of the responses the handlers build. -/
inductive Resp where
  | itemR : Item → Resp
  | itemsR : List Item → Resp
  | msgR : String → Resp
  | errR : String → Resp
  | errMsgR : String → String → Resp
deriving Repr, DecidableEq

/-- An HTTP response: status code and JSON body. -/
abbrev Response := Nat × Resp

/-- Handler for `GET /`. -/
def home : Response := (200, .msgR "Welcome to the Flask API!")

/-- Handler for `GET /items`: `jsonify({'items': items})`. -/
def get_items (items : Store) : Response := (200, .itemsR items)

/-- Handler for `POST /items` (`add_item`): reject when `not data or 'name'
not in data`, else append `{'id': len(items) + 1, 'name': data['name']}`. -/
def add_item (data : Body) (items : Store) : Response × Store :=
  if bodyFalsy data then
    ((400, .errMsgR "Bad Request" "Name is required"), items)
  else
    match bodyName data with
    | none => ((400, .errMsgR "Bad Request" "Name is required"), items)
    | some nm =>
      let item : Item := { id := items.length + 1, name := nm }
      ((201, .itemR item), items ++ [item])

/-- Handler for `GET /items/<int:item_id>` (`get_item`): linear scan,
first item whose `id` matches; 404 when none does. -/
def get_item (item_id : Nat) (items : Store) : Response :=
  match items.find? (fun it => it.id == item_id) with
  | some item => (200, .itemR item)
  | none => (404, .errR "Item not found")

/-- In-place `item['name'] = data['name']` on the first item of the list whose
`id` matches (the dict found by `next(...)` aliases the list element). -/
def setNameFirst (item_id : Nat) (nm : String) : Store → Store
  | [] => []
  | it :: rest =>
    if it.id == item_id then { it with name := nm } :: rest
    else it :: setNameFirst item_id nm rest

/-- Handler for `PUT /items/<int:item_id>` (`update_item`): body validation
exactly as in `add_item`, then linear scan; on a hit the found item's `name`
is overwritten and the updated item returned, else 404. -/
def update_item (item_id : Nat) (data : Body) (items : Store) :
    Response × Store :=
  if bodyFalsy data then
    ((400, .errMsgR "Bad Request" "Name is required"), items)
  else
    match bodyName data with
    | none => ((400, .errMsgR "Bad Request" "Name is required"), items)
    | some nm =>
      match items.find? (fun it => it.id == item_id) with
      | some item =>
        ((200, .itemR { item with name := nm }), setNameFirst item_id nm items)
      | none => ((404, .errR "Item not found"), items)

/-- Handler for `DELETE /items/<int:item_id>` (`delete_item`): scan for a
match; on a hit rebuild the list keeping `itm['id'] != item_id`, else 404. -/
def delete_item (item_id : Nat) (items : Store) : Response × Store :=
  match items.find? (fun it => it.id == item_id) with
  | some _ =>
    ((200, .msgR "Item deleted"), items.filter (fun it => it.id != item_id))
  | none => ((404, .errR "Item not found"), items)

/-- One client request against the service. -/
inductive Op where
  | getAllOp : Op
  | postOp : Body → Op
  | getOp : Nat → Op
  | putOp : Nat → Body → Op
  | delOp : Nat → Op
deriving Repr, DecidableEq

/-- Dispatch one request to its handler. -/
def step : Op → Store → Response × Store
  | .getAllOp, s => (get_items s, s)
  | .postOp b, s => add_item b s
  | .getOp i, s => (get_item i s, s)
  | .putOp i b, s => update_item i b s
  | .delOp i, s => delete_item i s

/-- Run a session: the list of responses and the final store. -/
def run : List Op → Store → List Response × Store
  | [], s => ([], s)
  | op :: rest, s =>
    let r := step op s
    let t := run rest r.2
    (r.1 :: t.1, t.2)

/-- Count of requests answered 201 (successful creations) along a session. -/
def numCreated : List Op → Store → Nat
  | [], _ => 0
  | op :: rest, s =>
    let r := step op s
    (if r.1.1 = 201 then 1 else 0) + numCreated rest r.2

/-- A session in which every DELETE request was answered with something
other than 200, i.e. no deletion succeeded. -/
def noSuccessfulDelete : List Op → Store → Bool
  | [], _ => true
  | op :: rest, s =>
    let r := step op s
    (match op with
     | .delOp _ => r.1.1 != 200
     | _ => true) && noSuccessfulDelete rest r.2

/-- The store's ids read `1, 2, ..., length` in order — the shape every
delete-free session maintains. -/
def idsCanonical (s : Store) : Prop :=
  s.map (fun it => it.id) = List.range' 1 s.length

/-- Splitting a session at any point composes. -/
theorem run_append (xs ys : List Op) (s : Store) :
    run (xs ++ ys) s =
      ((run xs s).1 ++ (run ys (run xs s).2).1, (run ys (run xs s).2).2) := by
  induction xs generalizing s with
  | nil => simp [run]
  | cons op rest ih => simp [run, ih]

/-- A filter misses at least one element of the list, so it shortens it. -/
theorem length_filter_lt_of_exists_not (q : Item → Bool) (s : Store)
    (h : ∃ it ∈ s, q it = false) : (s.filter q).length < s.length := by
  induction s with
  | nil =>
    obtain ⟨it, hmem, _⟩ := h
    cases hmem
  | cons a rest ih =>
    obtain ⟨it, hmem, hq⟩ := h
    rcases List.mem_cons.mp hmem with rfl | hmem
    · rw [List.filter_cons, hq]
      exact Nat.lt_succ_of_le (List.length_filter_le q rest)
    · rw [List.filter_cons]
      cases hqa : q a
      · exact Nat.lt_succ_of_le (Nat.le_of_lt (ih ⟨it, hmem, hq⟩))
      · simpa using Nat.succ_lt_succ (ih ⟨it, hmem, hq⟩)

/-- With pairwise-distinct ids, deleting a present id drops exactly one. -/
theorem length_filter_ne_of_pairwise (item_id : Nat) (s : Store)
    (hp : s.Pairwise (fun a b => a.id ≠ b.id))
    (he : ∃ it ∈ s, it.id = item_id) :
    (s.filter (fun it => it.id != item_id)).length + 1 = s.length := by
  induction s with
  | nil =>
    obtain ⟨it, hmem, _⟩ := he
    cases hmem
  | cons a rest ih =>
    rw [List.filter_cons]
    by_cases ha : a.id = item_id
    · have hrest : rest.filter (fun it => it.id != item_id) = rest := by
        refine List.filter_eq_self.mpr (fun b hb => ?_)
        have := (List.pairwise_cons.mp hp).1 b hb
        simp [ha] at this
        simpa using Ne.symm this
      simp [ha, hrest]
    · obtain ⟨it, hmem, hid⟩ := he
      rcases List.mem_cons.mp hmem with rfl | hmem
      · exact absurd hid ha
      · have := ih (List.pairwise_cons.mp hp).2 ⟨it, hmem, hid⟩
        simp [ha]
        omega

/-- On a store containing a match, the position of the first matching item
determines both the linear scan and the in-place name write. -/
theorem find_setNameFirst (item_id : Nat) (nm : String) (s : Store)
    (he : ∃ it ∈ s, it.id = item_id) :
    ∃ j, ∃ hj : j < s.length,
      (s.get ⟨j, hj⟩).id = item_id ∧
      (∀ i, ∀ hi : i < s.length, i < j → (s.get ⟨i, hi⟩).id ≠ item_id) ∧
      s.find? (fun it => it.id == item_id) = some (s.get ⟨j, hj⟩) ∧
      setNameFirst item_id nm s = s.set j ⟨item_id, nm⟩ := by
  induction s with
  | nil =>
    obtain ⟨it, hmem, _⟩ := he
    cases hmem
  | cons a rest ih =>
    by_cases ha : a.id = item_id
    · refine ⟨0, Nat.succ_pos _, ha, ?_, ?_, ?_⟩
      · intro i hi hlt
        omega
      · simp [List.find?_cons_of_pos, ha]
      · simp [setNameFirst, ha]
    · have he' : ∃ it ∈ rest, it.id = item_id := by
        obtain ⟨it, hmem, hid⟩ := he
        rcases List.mem_cons.mp hmem with rfl | hmem
        · exact absurd hid ha
        · exact ⟨it, hmem, hid⟩
      obtain ⟨j, hj, h1, h2, h3, h4⟩ := ih he'
      refine ⟨j + 1, Nat.succ_lt_succ hj, h1, ?_, ?_, ?_⟩
      · intro i hi hlt
        cases i with
        | zero => exact ha
        | succ i' =>
          exact h2 i' (Nat.lt_of_succ_lt_succ hi) (Nat.lt_of_succ_lt_succ hlt)
      · rw [List.find?_cons_of_neg]
        · exact h3
        · simpa using ha
      · simp [setNameFirst, ha, h4]

/-- The in-place name write does not touch ids. -/
theorem map_id_setNameFirst (item_id : Nat) (nm : String) (s : Store) :
    (setNameFirst item_id nm s).map (fun it => it.id) =
      s.map (fun it => it.id) := by
  induction s with
  | nil => rfl
  | cons a rest ih =>
    by_cases h : a.id = item_id
    · simp [setNameFirst, h]
    · simp [setNameFirst, h, ih]

/-- The in-place name write preserves the store length. -/
theorem length_setNameFirst (item_id : Nat) (nm : String) (s : Store) :
    (setNameFirst item_id nm s).length = s.length := by
  have h := congrArg List.length (map_id_setNameFirst item_id nm s)
  simpa using h

/-- The list `range' 1 n` is strictly increasing. -/
theorem pairwise_lt_range_one (n : Nat) :
    List.Pairwise (· < ·) (List.range' 1 n) := by
  have h : List.Chain (· < ·) 0 (List.range' (0 + 1) n 1) :=
    List.chain_lt_range' 0 n (by omega)
  have h2 : List.Chain' (· < ·) (0 :: List.range' 1 n) := by
    simpa using h
  have h3 : List.Pairwise (· < ·) (0 :: List.range' 1 n) :=
    List.chain'_iff_pairwise.mp h2
  exact h3.sublist (List.sublist_cons_self 0 _)

/-- With pairwise-distinct ids, a lookup by id has at most one match. -/
theorem length_filter_le_one_of_pairwise_ne (k : Nat) (s : Store)
    (hp : s.Pairwise (fun a b => a.id ≠ b.id)) :
    (s.filter (fun it => it.id == k)).length ≤ 1 := by
  induction s with
  | nil => simp
  | cons a rest ih =>
    rw [List.filter_cons]
    by_cases hak : a.id = k
    · have hnone : rest.filter (fun it => it.id == k) = [] := by
        refine List.filter_eq_nil_iff.mpr (fun b hb => ?_)
        have hne := (List.pairwise_cons.mp hp).1 b hb
        rw [hak] at hne
        simpa using Ne.symm hne
      simp [hak, hnone]
    · have := ih (List.pairwise_cons.mp hp).2
      simpa [hak] using this

/-- Unfolding of `add_item` on a valid body (shared helper). -/
theorem add_item_of_valid (data : Body) (items : Store) (nm : String)
    (hf : bodyFalsy data = false) (hn : bodyName data = some nm) :
    add_item data items =
      ((201, .itemR ⟨items.length + 1, nm⟩),
       items ++ [⟨items.length + 1, nm⟩]) := by
  simp [add_item, hf, hn]

/-- One request preserves the canonical id shape unless a DELETE succeeds. -/
theorem step_preserves_canonical (op : Op) (s : Store)
    (hc : idsCanonical s)
    (hdel : ∀ i, op = .delOp i → (step op s).1.1 ≠ 200) :
    idsCanonical (step op s).2 := by
  cases op with
  | getAllOp => exact hc
  | getOp i => exact hc
  | postOp b =>
    cases hb : bodyFalsy b with
    | true =>
      have hstep : step (.postOp b) s =
          ((400, .errMsgR "Bad Request" "Name is required"), s) := by
        simp [step, add_item, hb]
      rw [hstep]
      exact hc
    | false =>
      cases hn : bodyName b with
      | none =>
        have hstep : step (.postOp b) s =
            ((400, .errMsgR "Bad Request" "Name is required"), s) := by
          simp [step, add_item, hb, hn]
        rw [hstep]
        exact hc
      | some nm =>
        have hstep : step (.postOp b) s =
            ((201, .itemR ⟨s.length + 1, nm⟩), s ++ [⟨s.length + 1, nm⟩]) := by
          simpa [step] using add_item_of_valid b s nm hb hn
        rw [hstep]
        unfold idsCanonical at hc ⊢
        simp only [List.map_append, List.length_append, List.map_cons,
          List.map_nil, List.length_cons, List.length_nil]
        rw [hc, List.range'_1_concat]
        simp [Nat.add_comm]
  | putOp i b =>
    cases hb : bodyFalsy b with
    | true =>
      have hstep : step (.putOp i b) s =
          ((400, .errMsgR "Bad Request" "Name is required"), s) := by
        simp [step, update_item, hb]
      rw [hstep]
      exact hc
    | false =>
      cases hn : bodyName b with
      | none =>
        have hstep : step (.putOp i b) s =
            ((400, .errMsgR "Bad Request" "Name is required"), s) := by
          simp [step, update_item, hb, hn]
        rw [hstep]
        exact hc
      | some nm =>
        cases hfind : s.find? (fun it => it.id == i) with
        | none =>
          have hstep : step (.putOp i b) s =
              ((404, .errR "Item not found"), s) := by
            simp [step, update_item, hb, hn, hfind]
          rw [hstep]
          exact hc
        | some a =>
          have hstep : (step (.putOp i b) s).2 = setNameFirst i nm s := by
            simp [step, update_item, hb, hn, hfind]
          rw [hstep]
          unfold idsCanonical at hc ⊢
          rw [map_id_setNameFirst, length_setNameFirst]
          exact hc
  | delOp i =>
    have h200 := hdel i rfl
    cases hfind : s.find? (fun it => it.id == i) with
    | none =>
      have hstep : step (.delOp i) s = ((404, .errR "Item not found"), s) := by
        simp [step, delete_item, hfind]
      rw [hstep]
      exact hc
    | some a =>
      exfalso
      apply h200
      simp [step, delete_item, hfind]

/-- A whole session without a successful DELETE preserves the shape. -/
theorem run_preserves_canonical (ops : List Op) (s : Store)
    (hc : idsCanonical s) (h : noSuccessfulDelete ops s = true) :
    idsCanonical (run ops s).2 := by
  induction ops generalizing s with
  | nil => exact hc
  | cons op rest ih =>
    unfold noSuccessfulDelete at h
    rw [Bool.and_eq_true] at h
    refine ih (step op s).2 (step_preserves_canonical op s hc ?_) h.2
    intro i hop
    subst hop
    have h1 := h.1
    simpa using h1

end FlaskApi

namespace FlaskApi

/-- C1: a POST whose body carries `name` appends exactly one item, whose id is
the store length at the moment of insertion plus one, and answers 201 with
that item; the id comes from the current store length, not from a counter. -/
theorem add_item_appends_with_length_id (data : Body) (items : Store)
    (nm : String) (hf : bodyFalsy data = false) (hn : bodyName data = some nm) :
    add_item data items =
      ((201, .itemR ⟨items.length + 1, nm⟩),
       items ++ [⟨items.length + 1, nm⟩]) :=
  add_item_of_valid data items nm hf hn

/-- Witness for C1 at a concrete input. -/
theorem add_item_appends_with_length_id_witness :
    add_item (.dict [("name", "apple")]) [⟨1, "z"⟩] =
      ((201, .itemR ⟨2, "apple"⟩), [⟨1, "z"⟩, ⟨2, "apple"⟩]) :=
  add_item_appends_with_length_id (.dict [("name", "apple")]) [⟨1, "z"⟩]
    "apple" rfl rfl

/-- C5: a POST whose body is absent/falsy or lacks the key `name` answers
400 `{error: Bad Request, message: Name is required}` and the store is
returned unchanged. -/
theorem add_item_bad_request (data : Body) (items : Store)
    (h : bodyFalsy data = true ∨ bodyName data = none) :
    add_item data items =
      ((400, .errMsgR "Bad Request" "Name is required"), items) := by
  rcases h with h | h
  · simp [add_item, h]
  · cases hf : bodyFalsy data <;> simp [add_item, hf, h]

/-- Witness for C5 at a concrete input. -/
theorem add_item_bad_request_witness :
    add_item (.dict [("color", "red")]) [⟨1, "a"⟩] =
      ((400, .errMsgR "Bad Request" "Name is required"), [⟨1, "a"⟩]) :=
  add_item_bad_request (.dict [("color", "red")]) [⟨1, "a"⟩] (Or.inr rfl)

/-- C10: a PUT whose body is absent/falsy or lacks `name` answers 400 and
leaves the store unchanged, for every store — in particular also when no
item with the requested id exists, because the body is validated before
the id lookup. -/
theorem update_item_validates_body_first (item_id : Nat) (data : Body)
    (items : Store) (h : bodyFalsy data = true ∨ bodyName data = none) :
    update_item item_id data items =
      ((400, .errMsgR "Bad Request" "Name is required"), items) := by
  rcases h with h | h
  · simp [update_item, h]
  · cases hf : bodyFalsy data <;> simp [update_item, hf, h]

/-- Witness for C10 at a concrete input whose id is not in the store:
the answer is 400, not 404. -/
theorem update_item_validates_body_first_witness :
    update_item 7 .absent [⟨1, "a"⟩] =
      ((400, .errMsgR "Bad Request" "Name is required"), [⟨1, "a"⟩]) ∧
    get_item 7 [⟨1, "a"⟩] = (404, .errR "Item not found") :=
  ⟨update_item_validates_body_first 7 .absent [⟨1, "a"⟩] (Or.inl rfl), rfl⟩

/-- C8: GET /items answers 200 with exactly the current store, in its stored
(insertion) order, and leaves the store unchanged; deletion rebuilds the
store as an order-preserving sublist, so survivors keep their relative
order. -/
theorem get_items_lists_store (s : Store) (item_id : Nat) :
    step .getAllOp s = ((200, .itemsR s), s) ∧
    ((delete_item item_id s).2).Sublist s := by
  refine ⟨rfl, ?_⟩
  unfold delete_item
  cases s.find? (fun it => it.id == item_id) with
  | none => exact List.Sublist.refl s
  | some it => exact s.filter_sublist

/-- C2 counterexample: after POST apple and DELETE 1, one item was ever
successfully created, yet the next successful POST is answered with id 1,
not 1 + 1 = 2: the id is not derived from the count of past creations. -/
theorem id_not_creation_count_counterexample :
    numCreated [.postOp (.dict [("name", "apple")]), .delOp 1] [] = 1 ∧
    (run [.postOp (.dict [("name", "apple")]), .delOp 1,
          .postOp (.dict [("name", "banana")])] []).1.getLast? =
      some (201, .itemR ⟨1, "banana"⟩) ∧
    (1 : Nat) ≠ 1 + 1 :=
  ⟨rfl, rfl, by decide⟩

/-- C2 amended: in every session started from the empty store, a trailing
successful POST is answered with id equal to the length of the store the
session had reached plus one — the id is recomputed from the current store
contents, not from the number of past successful creations. -/
theorem post_id_from_current_length (ops : List Op) (data : Body)
    (nm : String) (hf : bodyFalsy data = false)
    (hn : bodyName data = some nm) :
    (run (ops ++ [.postOp data]) []).1.getLast? =
      some (201, .itemR ⟨(run ops []).2.length + 1, nm⟩) := by
  rw [run_append]
  simp only [run, step]
  rw [add_item_of_valid _ _ nm hf hn]
  simp

/-- Witness for the amended C2: after POST apple then DELETE 1 the store is
empty again, so the next POST gets id 0 + 1 = 1. -/
theorem post_id_from_current_length_witness :
    (run ([.postOp (.dict [("name", "apple")]), .delOp 1] ++
          [.postOp (.dict [("name", "banana")])]) []).1.getLast? =
      some (201, .itemR ⟨1, "banana"⟩) :=
  post_id_from_current_length [.postOp (.dict [("name", "apple")]), .delOp 1]
    (.dict [("name", "banana")]) "banana" rfl rfl

/-- C3 counterexample: the store can reach a state with two items of equal
id (POST a, POST b, DELETE 1, POST c leaves ids 2 and 2); a DELETE of an id
that exists there answers 200 but removes two items, not exactly one. -/
theorem delete_removes_two_counterexample :
    (run [.postOp (.dict [("name", "a")]), .postOp (.dict [("name", "b")]),
          .delOp 1, .postOp (.dict [("name", "c")])] []).2 =
      [⟨2, "b"⟩, ⟨2, "c"⟩] ∧
    (delete_item 2 [⟨2, "b"⟩, ⟨2, "c"⟩]).1.1 = 200 ∧
    (delete_item 2 [⟨2, "b"⟩, ⟨2, "c"⟩]).2.length = 0 ∧
    ([(⟨2, "b"⟩ : Item), ⟨2, "c"⟩]).length = 2 :=
  ⟨rfl, rfl, rfl, rfl⟩

/-- C3 amended: a DELETE of a present id answers 200 and removes every item
bearing that id — exactly one when the store's ids are pairwise distinct —
and a subsequent GET of that id answers 404; a DELETE of an absent id
answers 404 and returns the store unchanged. -/
theorem delete_item_spec (item_id : Nat) (s : Store) :
    ((∃ it ∈ s, it.id = item_id) →
      (delete_item item_id s).1 = (200, .msgR "Item deleted") ∧
      (delete_item item_id s).2 = s.filter (fun it => it.id != item_id) ∧
      (delete_item item_id s).2.length < s.length ∧
      get_item item_id (delete_item item_id s).2 =
        (404, .errR "Item not found") ∧
      (s.Pairwise (fun a b => a.id ≠ b.id) →
        (delete_item item_id s).2.length + 1 = s.length)) ∧
    ((∀ it ∈ s, it.id ≠ item_id) →
      delete_item item_id s = ((404, .errR "Item not found"), s)) := by
  constructor
  · rintro ⟨it, hmem, hid⟩
    have hfind : (s.find? (fun it => it.id == item_id)).isSome :=
      List.find?_isSome.mpr ⟨it, hmem, by simpa using hid⟩
    obtain ⟨a, ha⟩ := Option.isSome_iff_exists.mp hfind
    have hd : delete_item item_id s =
        ((200, .msgR "Item deleted"), s.filter (fun it => it.id != item_id)) := by
      unfold delete_item
      rw [ha]
    refine ⟨by rw [hd], by rw [hd], ?_, ?_, ?_⟩
    · rw [hd]
      exact length_filter_lt_of_exists_not (fun it => it.id != item_id) s
        ⟨it, hmem, by simpa using hid⟩
    · rw [hd]
      unfold get_item
      have : (s.filter (fun it => it.id != item_id)).find?
          (fun it => it.id == item_id) = none := by
        refine List.find?_eq_none.mpr (fun x hx => ?_)
        have := (List.mem_filter.mp hx).2
        simpa using this
      rw [this]
    · intro hp
      rw [hd]
      exact length_filter_ne_of_pairwise item_id s hp ⟨it, hmem, hid⟩
  · intro h
    have hfind : s.find? (fun it => it.id == item_id) = none :=
      List.find?_eq_none.mpr (fun x hx => by simpa using h x hx)
    unfold delete_item
    rw [hfind]

/-- Witness for the amended C3: a present id (GET answers 404 afterwards)
and an absent id (store returned unchanged), both at concrete inputs. -/
theorem delete_item_spec_witness :
    get_item 1 (delete_item 1 [⟨1, "a"⟩]).2 = (404, .errR "Item not found") ∧
    delete_item 2 [⟨1, "a"⟩] = ((404, .errR "Item not found"), [⟨1, "a"⟩]) :=
  ⟨((delete_item_spec 1 [⟨1, "a"⟩]).1
      ⟨⟨1, "a"⟩, List.mem_singleton.mpr rfl, rfl⟩).2.2.2.1,
   (delete_item_spec 2 [⟨1, "a"⟩]).2 (by decide)⟩

/-- C4 counterexample: the reachable store `[⟨2, banana⟩]` (POST apple,
POST banana, DELETE 1) assigns id 2 to a POST of cherry, colliding with
the survivor; the following GET of id 2 answers 200 but with the first
match's name `banana`, not the posted `cherry`. -/
theorem get_after_post_wrong_name_counterexample :
    (run [.postOp (.dict [("name", "apple")]),
          .postOp (.dict [("name", "banana")]), .delOp 1] []).2 =
      [⟨2, "banana"⟩] ∧
    add_item (.dict [("name", "cherry")]) [⟨2, "banana"⟩] =
      ((201, .itemR ⟨2, "cherry"⟩), [⟨2, "banana"⟩, ⟨2, "cherry"⟩]) ∧
    get_item 2 [⟨2, "banana"⟩, ⟨2, "cherry"⟩] = (200, .itemR ⟨2, "banana"⟩) ∧
    "banana" ≠ "cherry" :=
  ⟨rfl, rfl, rfl, by decide⟩

/-- C4 amended: when no item of the current store already bears the id the
POST will assign (store length + 1) — in particular in every delete-free
session — a successful POST followed by a GET of the returned id answers
200 with exactly the posted name. -/
theorem get_after_post_returns_posted_name (data : Body) (items : Store)
    (nm : String) (hf : bodyFalsy data = false)
    (hn : bodyName data = some nm)
    (hfresh : ∀ it ∈ items, it.id ≠ items.length + 1) :
    (add_item data items).1 = (201, .itemR ⟨items.length + 1, nm⟩) ∧
    get_item (items.length + 1) (add_item data items).2 =
      (200, .itemR ⟨items.length + 1, nm⟩) := by
  rw [add_item_of_valid data items nm hf hn]
  refine ⟨rfl, ?_⟩
  unfold get_item
  rw [List.find?_append]
  have h1 : items.find? (fun it => it.id == items.length + 1) = none :=
    List.find?_eq_none.mpr (fun it hmem => by simpa using hfresh it hmem)
  rw [h1]
  simp [List.find?]

/-- Witness for the amended C4: POST apple into the empty store, GET 1. -/
theorem get_after_post_returns_posted_name_witness :
    (add_item (.dict [("name", "apple")]) []).1 = (201, .itemR ⟨1, "apple"⟩) ∧
    get_item 1 (add_item (.dict [("name", "apple")]) []).2 =
      (200, .itemR ⟨1, "apple"⟩) :=
  get_after_post_returns_posted_name (.dict [("name", "apple")]) [] "apple"
    rfl rfl (by simp)

/-- C6: a PUT with a body carrying `name`: when some item has the requested
id, the first such item gets its name overwritten — its id and every other
item (contents and order, via `List.set` at the first matching position)
unchanged — and the answer is 200 with the updated item; when no item has
that id, the answer is 404 and the store is returned unchanged. -/
theorem update_item_spec (item_id : Nat) (data : Body) (items : Store)
    (nm : String) (hf : bodyFalsy data = false)
    (hn : bodyName data = some nm) :
    ((∃ it ∈ items, it.id = item_id) →
      ∃ j, ∃ hj : j < items.length,
        (items.get ⟨j, hj⟩).id = item_id ∧
        (∀ i, ∀ hi : i < items.length, i < j →
          (items.get ⟨i, hi⟩).id ≠ item_id) ∧
        update_item item_id data items =
          ((200, .itemR ⟨item_id, nm⟩), items.set j ⟨item_id, nm⟩)) ∧
    ((∀ it ∈ items, it.id ≠ item_id) →
      update_item item_id data items = ((404, .errR "Item not found"), items)) := by
  constructor
  · intro he
    obtain ⟨j, hj, h1, h2, h3, h4⟩ := find_setNameFirst item_id nm items he
    refine ⟨j, hj, h1, h2, ?_⟩
    have hu : update_item item_id data items =
        ((200, .itemR { items.get ⟨j, hj⟩ with name := nm }),
         setNameFirst item_id nm items) := by
      simp [update_item, hf, hn, h3]
    rw [hu, h4]
    simp only [h1]
  · intro h
    have hfind : items.find? (fun it => it.id == item_id) = none :=
      List.find?_eq_none.mpr (fun x hx => by simpa using h x hx)
    simp [update_item, hf, hn, hfind]

/-- Witness for C6: name update at a present id, and 404 at an absent id. -/
theorem update_item_spec_witness :
    update_item 1 (.dict [("name", "b")]) [⟨1, "a"⟩] =
      ((200, .itemR ⟨1, "b"⟩), [⟨1, "b"⟩]) ∧
    update_item 2 (.dict [("name", "b")]) [⟨1, "a"⟩] =
      ((404, .errR "Item not found"), [⟨1, "a"⟩]) := by
  constructor
  · obtain ⟨j, hj, h1, h2, h3⟩ :=
      (update_item_spec 1 (.dict [("name", "b")]) [⟨1, "a"⟩] "b" rfl rfl).1
        ⟨⟨1, "a"⟩, List.mem_singleton.mpr rfl, rfl⟩
    have hj0 : j = 0 := Nat.lt_one_iff.mp hj
    subst hj0
    simpa using h3
  · exact (update_item_spec 2 (.dict [("name", "b")]) [⟨1, "a"⟩] "b" rfl rfl).2
      (by decide)

/-- C7: in every session from the empty store in which no DELETE succeeded,
the store's ids are strictly increasing in store order (hence pairwise
distinct), every id is at most the store length (so the next POST's id,
length + 1, is strictly larger than every present id), and lookup by any
id has at most one match. -/
theorem no_delete_session_invariant (ops : List Op)
    (h : noSuccessfulDelete ops [] = true) :
    List.Pairwise (fun a b => a.id < b.id) (run ops []).2 ∧
    (∀ it ∈ (run ops []).2, it.id ≤ (run ops []).2.length) ∧
    (∀ k, (((run ops []).2).filter (fun it => it.id == k)).length ≤ 1) := by
  have hc : idsCanonical (run ops []).2 :=
    run_preserves_canonical ops [] (by simp [idsCanonical]) h
  unfold idsCanonical at hc
  have hplt : List.Pairwise (fun a b => a.id < b.id) (run ops []).2 := by
    refine List.pairwise_map.mp ?_
    rw [hc]
    exact pairwise_lt_range_one _
  refine ⟨hplt, ?_, ?_⟩
  · intro it hmem
    have hm : it.id ∈ ((run ops []).2).map (fun it => it.id) :=
      List.mem_map.mpr ⟨it, hmem, rfl⟩
    rw [hc] at hm
    have := (List.mem_range'_1.mp hm).2
    omega
  · intro k
    exact length_filter_le_one_of_pairwise_ne k (run ops []).2
      (hplt.imp (fun hlt => Nat.ne_of_lt hlt))

/-- Witness for C7: two POSTs from the empty store, ids 1 then 2. -/
theorem no_delete_session_invariant_witness :
    List.Pairwise (fun a b => a.id < b.id)
      (run [.postOp (.dict [("name", "apple")]),
            .postOp (.dict [("name", "banana")])] []).2 :=
  (no_delete_session_invariant
    [.postOp (.dict [("name", "apple")]),
     .postOp (.dict [("name", "banana")])] rfl).1

/-- C9: the concrete scenario from the spec, run from the empty store:
POST apple, POST banana, GET /items, DELETE /items/1, GET /items/1 yield
exactly 201/201/200/200/404 with the stated bodies. -/
theorem scenario_round_trip :
    (run [.postOp (.dict [("name", "apple")]),
          .postOp (.dict [("name", "banana")]),
          .getAllOp,
          .delOp 1,
          .getOp 1] []).1 =
      [(201, .itemR ⟨1, "apple"⟩),
       (201, .itemR ⟨2, "banana"⟩),
       (200, .itemsR [⟨1, "apple"⟩, ⟨2, "banana"⟩]),
       (200, .msgR "Item deleted"),
       (404, .errR "Item not found")] := by
  rfl

end FlaskApi
